import Mathlib

/-!
Verification of the TaskMaster bug-tracker core (src/models/database.py,
src/controllers/task_controller.py, src/controllers/bug_dashboard_controller.py,
src/views/list_view.py) against its natural-language specification.

The Python code is shallowly embedded: the SQLite store becomes an explicit
`DB` value (one list per table, plus the AUTOINCREMENT counters), SQL queries
become list traversals, timestamps become `Int` ticks threaded through the
operations as a `now` argument, and Python `None` becomes `Option`.  REAL
columns (`estimated_hours`, `time_spent`) are only ever stored and copied by
the code, never computed with, so they are embedded as `Option Rat`.
Python truthiness (`if search_filter.project_id:` skips both `None` and `0`,
`if s:` skips both `None` and `""`) is modelled explicitly wherever the code
relies on it.
-/

namespace BugTracker

/-! ## Data model (src/models/entities.py) -/

/-- The `SearchFilter` dataclass (entities.py): every field defaults to
"no constraint" (`None` / empty list).  Date bounds are timestamp ticks. -/
structure SearchFilter where
  query : Option String := none
  project_id : Option Int := none
  issue_type : Option String := none
  status_id : Option Int := none
  priority : Option Int := none
  severity : Option Int := none
  assignee_id : Option Int := none
  reporter_id : Option Int := none
  module_id : Option Int := none
  labels : List String := []
  created_from : Option Int := none
  created_to : Option Int := none
  updated_from : Option Int := none
  updated_to : Option Int := none
deriving DecidableEq, Repr

/-- A persisted row of the `tasks` table (schema in `_create_all_tables`). -/
structure TaskRow where
  id : Int
  project_id : Int
  title : String
  description : Option String
  status_id : Int
  priority : Int
  created_at : Option Int := none
  updated_at : Option Int := none
  issue_type : String := "TASK"
  severity : Int := 3
  reporter_id : Option Int := none
  assignee_id : Option Int := none
  module_id : Option Int := none
  affected_version_id : Option Int := none
  fix_version_id : Option Int := none
  environment : Option String := none
  steps_to_reproduce : Option String := none
  expected_result : Option String := none
  actual_result : Option String := none
  stack_trace : Option String := none
  resolution : Option String := none
  resolution_notes : Option String := none
  duplicate_of : Option Int := none
  estimated_hours : Option Rat := none
  time_spent : Option Rat := none
deriving DecidableEq, Repr

/-- The `Task` dataclass (entities.py): the in-memory entity handed to the
controllers and views.  `project_id` and `status_id` are ints in the
dataclass; the controller only ever tests them for truthiness, under which
Python's `None` and `0` behave identically, so both are embedded as `Int`
with `0` standing for the falsy "missing" value. -/
structure Task where
  id : Option Int := none
  project_id : Int
  title : String
  description : Option String := none
  status_id : Int
  priority : Int
  created_at : Option Int := none
  updated_at : Option Int := none
  project_name : Option String := none
  status_name : Option String := none
  issue_type : String := "TASK"
  severity : Int := 3
  reporter_id : Option Int := none
  reporter_name : Option String := none
  assignee_id : Option Int := none
  assignee_name : Option String := none
  module_id : Option Int := none
  module_name : Option String := none
  affected_version_id : Option Int := none
  affected_version_name : Option String := none
  fix_version_id : Option Int := none
  fix_version_name : Option String := none
  environment : Option String := none
  steps_to_reproduce : Option String := none
  expected_result : Option String := none
  actual_result : Option String := none
  stack_trace : Option String := none
  resolution : Option String := none
  resolution_notes : Option String := none
  duplicate_of : Option Int := none
  estimated_hours : Option Rat := none
  time_spent : Option Rat := none
  labels : List String := []
  comments_count : Nat := 0
  attachments_count : Nat := 0
deriving DecidableEq, Repr

/-- Row of `task_statuses`. -/
structure StatusRow where
  id : Int
  name : String
  color : String
  sort_order : Int
deriving DecidableEq, Repr

/-- Row of `projects`. -/
structure ProjectRow where
  id : Int
  name : String
  description : Option String
deriving DecidableEq, Repr

/-- Row of `users`. -/
structure UserRow where
  id : Int
  username : String
  email : String
  full_name : String
  role : String
  avatar_url : Option String
  is_active : Bool
deriving DecidableEq, Repr

/-- Row of `modules`. -/
structure ModuleRow where
  id : Int
  name : String
  display_name : String
  description : Option String
deriving DecidableEq, Repr

/-- Row of `labels`. -/
structure LabelRow where
  id : Int
  name : String
  color : String
  description : Option String
  is_system : Bool
deriving DecidableEq, Repr

/-- Row of `versions`. -/
structure VersionRow where
  id : Int
  name : String
  description : Option String
  status : String
deriving DecidableEq, Repr

/-- Row of `status_history`. -/
structure HistoryRow where
  id : Int
  task_id : Int
  old_status_id : Option Int
  new_status_id : Int
  changed_at : Option Int
  changed_by : Option Int
deriving DecidableEq, Repr

/-- The SQLite store owned by `DatabaseManager`, one list per table in
insertion order, plus the AUTOINCREMENT counters and the `_initialized`
flag of the singleton. -/
structure DB where
  initialized : Bool := false
  users : List UserRow := []
  projects : List ProjectRow := []
  modules : List ModuleRow := []
  versions : List VersionRow := []
  labels : List LabelRow := []
  task_statuses : List StatusRow := []
  tasks : List TaskRow := []
  status_history : List HistoryRow := []
  next_user_id : Int := 1
  next_project_id : Int := 1
  next_module_id : Int := 1
  next_version_id : Int := 1
  next_label_id : Int := 1
  next_task_id : Int := 1
  next_history_id : Int := 1
deriving DecidableEq, Repr

/-- How a storage operation fails: `valueError` is a Python `ValueError`
raised by `DatabaseManager` itself (domain-level), `integrityError` is an
uncaught `sqlite3.IntegrityError` escaping from a unique-constraint
violation (raw storage error). -/
inductive StoreError where
  | valueError (msg : String)
  | integrityError
deriving DecidableEq, Repr

/-! ## Task query engine (`DatabaseManager.get_enhanced_tasks_by_filter`) -/

/-- The `hasInfix p l` decides whether `p` occurs as a contiguous sublist of `l`
(character-level substring test). -/
def hasInfix (p : List Char) : List Char → Bool
  | [] => p.isEmpty
  | c :: rest => p.isPrefixOf (c :: rest) || hasInfix p rest

/-- ASCII lowercasing, character by character (`str.lower()` on the Python
side, the ASCII folding of SQLite `LIKE` on the SQL side). -/
def lowerList (s : String) : List Char :=
  s.toList.map Char.toLower

/-- SQL `x LIKE '%pat%'`: substring match, case-insensitive for ASCII
(SQLite default `LIKE`). -/
def likeContains (pat s : String) : Bool :=
  hasInfix (lowerList pat) (lowerList s)

/-- The `t.description LIKE '%pat%'` where the column is nullable: a NULL
operand makes the SQL predicate NULL, which excludes the row. -/
def likeContainsOpt (pat : String) : Option String → Bool
  | none => false
  | some s => likeContains pat s

/-- The `if search_filter.query:` guard plus the
`(t.title LIKE ? OR t.description LIKE ?)` clause. -/
def queryCond (f : SearchFilter) (t : TaskRow) : Bool :=
  match f.query with
  | none => true
  | some q => if q = "" then true else likeContains q t.title || likeContainsOpt q t.description

/-- The `if search_filter.project_id:` guard plus `t.project_id = ?`. -/
def projectCond (f : SearchFilter) (t : TaskRow) : Bool :=
  match f.project_id with
  | none => true
  | some v => if v = 0 then true else t.project_id = v

/-- The `if search_filter.issue_type:` guard plus `t.issue_type = ?`. -/
def issueTypeCond (f : SearchFilter) (t : TaskRow) : Bool :=
  match f.issue_type with
  | none => true
  | some s => if s = "" then true else t.issue_type = s

/-- The `if search_filter.status_id:` guard plus `t.status_id = ?`. -/
def statusCond (f : SearchFilter) (t : TaskRow) : Bool :=
  match f.status_id with
  | none => true
  | some v => if v = 0 then true else t.status_id = v

/-- The `if search_filter.priority:` guard plus `t.priority = ?`. -/
def priorityCond (f : SearchFilter) (t : TaskRow) : Bool :=
  match f.priority with
  | none => true
  | some v => if v = 0 then true else t.priority = v

/-- The `if search_filter.assignee_id:` guard plus `t.assignee_id = ?`
(a NULL column never equals a bound value in SQL). -/
def assigneeCond (f : SearchFilter) (t : TaskRow) : Bool :=
  match f.assignee_id with
  | none => true
  | some v => if v = 0 then true else t.assignee_id = some v

/-- The `if search_filter.module_id:` guard plus `t.module_id = ?`. -/
def moduleCond (f : SearchFilter) (t : TaskRow) : Bool :=
  match f.module_id with
  | none => true
  | some v => if v = 0 then true else t.module_id = some v

/-- The conjunction of WHERE clauses `get_enhanced_tasks_by_filter` builds.
These seven are the only filter fields the method reads: `severity`,
`reporter_id`, `labels` and the four date bounds never reach the query. -/
def filterKeeps (f : SearchFilter) (t : TaskRow) : Bool :=
  queryCond f t && projectCond f t && issueTypeCond f t && statusCond f t &&
    priorityCond f t && assigneeCond f t && moduleCond f t

/-- The `JOIN projects p ON t.project_id = p.id` and
`JOIN task_statuses ts ON t.status_id = ts.id` inner joins: a task whose
project or status does not resolve is silently excluded.  The LEFT JOINs
(users, modules, versions) and the per-row display columns, comment and
attachment counts and label loading only decorate the returned rows and
never change which tasks are returned, so they are not embedded. -/
def resolvesJoins (db : DB) (t : TaskRow) : Bool :=
  db.projects.any (fun p => p.id = t.project_id) &&
    db.task_statuses.any (fun s => s.id = t.status_id)

/-- The `ORDER BY t.updated_at DESC`: SQLite sorts NULLs last in DESC order.
`updBefore a b` holds when a row with key `a` may appear at or before a row
with key `b` in the output. -/
def updBefore : Option Int → Option Int → Bool
  | _, none => true
  | none, some _ => false
  | some x, some y => y ≤ x

/-- Insertion step of the ORDER BY sort. -/
def insUpd (t : TaskRow) : List TaskRow → List TaskRow
  | [] => [t]
  | h :: tl => if updBefore t.updated_at h.updated_at then t :: h :: tl else h :: insUpd t tl

/-- The ORDER BY sort itself (insertion sort; claims below only depend on
membership, which any sort preserves). -/
def sortByUpdatedDesc (l : List TaskRow) : List TaskRow :=
  l.foldr insUpd []

/-- The `DatabaseManager.get_enhanced_tasks_by_filter`: inner joins, the WHERE
conjunction of the truthy filter fields, then `ORDER BY t.updated_at DESC`. -/
def get_enhanced_tasks_by_filter (db : DB) (f : SearchFilter) : List TaskRow :=
  sortByUpdatedDesc ((db.tasks.filter (fun t => resolvesJoins db t && filterKeeps f t)))

/-! ## CRUD operations (src/models/database.py) -/

/-- The `User` dataclass fields fed into `create_user`. -/
structure User where
  id : Option Int := none
  username : String
  email : String
  full_name : String
  role : String := "REPORTER"
  avatar_url : Option String := none
  is_active : Bool := true
deriving DecidableEq, Repr

/-- The `Project` dataclass. -/
structure Project where
  id : Option Int := none
  name : String
  description : Option String := none
deriving DecidableEq, Repr

/-- The `Label` dataclass fields fed into `create_label`. -/
structure Label where
  id : Option Int := none
  name : String
  color : String
  description : Option String := none
  is_system : Bool := false
deriving DecidableEq, Repr

/-- The `DatabaseManager.create_user`: the INSERT hits the UNIQUE constraints on
`username` and `email`; the method catches `sqlite3.IntegrityError` and
re-raises it as the domain-level `ValueError "Użytkownik ... już istnieje"`. -/
def create_user (db : DB) (u : User) : Except StoreError (Int × DB) :=
  if db.users.any (fun r => r.username = u.username || r.email = u.email) then
    .error (.valueError ("Użytkownik " ++ u.username ++ " już istnieje"))
  else
    let uid := db.next_user_id
    .ok (uid, { db with
      users := db.users ++ [⟨uid, u.username, u.email, u.full_name, u.role, u.avatar_url, u.is_active⟩],
      next_user_id := uid + 1 })

/-- The `DatabaseManager.create_project`: the INSERT hits the UNIQUE constraint
on `name`, and the method has no try/except, so the raw
`sqlite3.IntegrityError` escapes to the caller. -/
def create_project (db : DB) (p : Project) : Except StoreError (Int × DB) :=
  if db.projects.any (fun r => r.name = p.name) then
    .error .integrityError
  else
    let pid := db.next_project_id
    .ok (pid, { db with
      projects := db.projects ++ [⟨pid, p.name, p.description⟩],
      next_project_id := pid + 1 })

/-- The `DatabaseManager.create_label`: like `create_project`, no try/except —
a duplicate `name` lets the raw `sqlite3.IntegrityError` escape. -/
def create_label (db : DB) (l : Label) : Except StoreError (Int × DB) :=
  if db.labels.any (fun r => r.name = l.name) then
    .error .integrityError
  else
    let lid := db.next_label_id
    .ok (lid, { db with
      labels := db.labels ++ [⟨lid, l.name, l.color, l.description, l.is_system⟩],
      next_label_id := lid + 1 })

/-- The `DatabaseManager.create_task`: INSERT of the listed columns (note that
`resolution`, `resolution_notes`, `duplicate_of` and `time_spent` are not in
the column list and default to NULL, and `created_at`/`updated_at` default
to CURRENT_TIMESTAMP), then exactly one `status_history` INSERT with
`old_status_id = NULL`, `new_status_id = task.status_id`,
`changed_by = task.reporter_id`. -/
def create_task (db : DB) (t : Task) (now : Int) : Int × DB :=
  let tid := db.next_task_id
  let row : TaskRow :=
    { id := tid, project_id := t.project_id, title := t.title,
      description := t.description, status_id := t.status_id,
      priority := t.priority, created_at := some now, updated_at := some now,
      issue_type := t.issue_type, severity := t.severity,
      reporter_id := t.reporter_id, assignee_id := t.assignee_id,
      module_id := t.module_id, affected_version_id := t.affected_version_id,
      fix_version_id := t.fix_version_id, environment := t.environment,
      steps_to_reproduce := t.steps_to_reproduce,
      expected_result := t.expected_result, actual_result := t.actual_result,
      stack_trace := t.stack_trace, resolution := none,
      resolution_notes := none, duplicate_of := none,
      estimated_hours := t.estimated_hours, time_spent := none }
  let hrow : HistoryRow :=
    { id := db.next_history_id, task_id := tid, old_status_id := none,
      new_status_id := t.status_id, changed_at := some now,
      changed_by := t.reporter_id }
  (tid, { db with
    tasks := db.tasks ++ [row],
    status_history := db.status_history ++ [hrow],
    next_task_id := tid + 1,
    next_history_id := db.next_history_id + 1 })

/-- The SET list of `DatabaseManager.update_task` applied to one row: the
nineteen listed columns plus `updated_at = CURRENT_TIMESTAMP`.  The UPDATE
names neither `project_id`, nor `reporter_id`, nor `duplicate_of`, nor
`created_at`, so those keep their stored values. -/
def applyTaskUpdate (t : Task) (now : Int) (r : TaskRow) : TaskRow :=
  { r with
    title := t.title, description := t.description,
    status_id := t.status_id, priority := t.priority,
    issue_type := t.issue_type, severity := t.severity,
    assignee_id := t.assignee_id, module_id := t.module_id,
    affected_version_id := t.affected_version_id,
    fix_version_id := t.fix_version_id, environment := t.environment,
    steps_to_reproduce := t.steps_to_reproduce,
    expected_result := t.expected_result, actual_result := t.actual_result,
    stack_trace := t.stack_trace, resolution := t.resolution,
    resolution_notes := t.resolution_notes,
    estimated_hours := t.estimated_hours, time_spent := t.time_spent,
    updated_at := some now }

/-- The `DatabaseManager.update_task`: `UPDATE tasks SET ... WHERE id = ?`
(a `None` id binds SQL NULL, which matches no row). -/
def update_task (db : DB) (t : Task) (now : Int) : DB :=
  { db with tasks := db.tasks.map (fun r => if some r.id = t.id then applyTaskUpdate t now r else r) }

/-- The `DatabaseManager.update_task_status`: read the current `status_id` of
the task (raising `ValueError` when the id does not exist), update the row
stamping `updated_at`, and append exactly one `status_history` row with the
old and new status ids (`changed_by` is not bound and stays NULL). -/
def update_task_status (db : DB) (task_id new_status_id : Int) (now : Int) :
    Except StoreError DB :=
  match db.tasks.find? (fun r => r.id = task_id) with
  | none => .error (.valueError ("Zadanie " ++ toString task_id ++ " nie istnieje"))
  | some r =>
    .ok { db with
      tasks := db.tasks.map (fun q =>
        if q.id = task_id then { q with status_id := new_status_id, updated_at := some now } else q),
      status_history := db.status_history ++
        [{ id := db.next_history_id, task_id := task_id,
           old_status_id := some r.status_id, new_status_id := new_status_id,
           changed_at := some now, changed_by := none }],
      next_history_id := db.next_history_id + 1 }

/-! ## Seed data and initialization (`initialize_database`,
`_insert_initial_data`).  Schema creation (`_create_all_tables`) uses
CREATE TABLE IF NOT EXISTS throughout and is represented by the `DB` type
itself; every seed INSERT is INSERT OR IGNORE, keyed by the table's
PRIMARY KEY or UNIQUE column. -/

/-- The fixed 10-row `task_statuses` seed. -/
def seedStatuses : List StatusRow :=
  [⟨1, "📋 To Do", "#6B7280", 1⟩,
   ⟨2, "🚀 In Progress", "#3B82F6", 2⟩,
   ⟨3, "👀 Review", "#F59E0B", 3⟩,
   ⟨4, "🔒 Blocked", "#EF4444", 4⟩,
   ⟨5, "✅ Done", "#10B981", 5⟩,
   ⟨6, "🔍 Triaged", "#9CA3AF", 6⟩,
   ⟨7, "👀 Code Review", "#8B5CF6", 7⟩,
   ⟨8, "🧪 Testing", "#06B6D4", 8⟩,
   ⟨9, "✅ Verification", "#10B981", 9⟩,
   ⟨10, "🔄 Reopened", "#F59E0B", 10⟩]

/-- The 15 module seeds (name, display_name). -/
def seedModules : List (String × String) :=
  [("CORE", "🏗️ Core System"), ("TRADING", "📈 Trading Module"),
   ("BROKER", "🔗 Broker Integration"), ("STRATEGY", "🧠 Strategy Engine"),
   ("RISK", "⚠️ Risk Management"), ("PORTFOLIO", "💼 Portfolio Management"),
   ("ANALYSIS", "📊 Technical Analysis"), ("DATA", "💾 Data Management"),
   ("UI", "🎨 User Interface"), ("DB", "🗄️ Database"),
   ("API", "🔌 API Integrations"), ("REPORTING", "📋 Reports & Visualization"),
   ("SECURITY", "🔒 Security"), ("PERFORMANCE", "⚡ Performance"),
   ("TESTING", "🧪 Testing Framework")]

/-- The 6 system-label seeds (name, color). -/
def seedLabels : List (String × String) :=
  [("performance-critical", "#FF4444"), ("customer-reported", "#4444FF"),
   ("regression", "#FF8800"), ("hotfix-candidate", "#FF0000"),
   ("breaking-change", "#8800FF"), ("easy-fix", "#88FF00")]

/-- The 3 version seeds (name, status). -/
def seedVersions : List (String × String) :=
  [("v1.0.0", "RELEASED"), ("v1.1.0", "PLANNED"), ("v2.0.0", "PLANNED")]

/-- INSERT OR IGNORE into `task_statuses` (conflict key: PRIMARY KEY `id`). -/
def insertOrIgnoreStatus (db : DB) (s : StatusRow) : DB :=
  if db.task_statuses.any (fun r => r.id = s.id) then db
  else { db with task_statuses := db.task_statuses ++ [s] }

/-- INSERT OR IGNORE into `projects` (conflict key: UNIQUE `name`). -/
def insertOrIgnoreProject (db : DB) (name : String) (desc : Option String) : DB :=
  if db.projects.any (fun r => r.name = name) then db
  else { db with
         projects := db.projects ++ [⟨db.next_project_id, name, desc⟩],
         next_project_id := db.next_project_id + 1 }

/-- INSERT OR IGNORE into `modules` (conflict key: UNIQUE `name`). -/
def insertOrIgnoreModule (db : DB) (name display : String) : DB :=
  if db.modules.any (fun r => r.name = name) then db
  else { db with
         modules := db.modules ++ [⟨db.next_module_id, name, display, none⟩],
         next_module_id := db.next_module_id + 1 }

/-- INSERT OR IGNORE into `labels` (conflict key: UNIQUE `name`). -/
def insertOrIgnoreLabel (db : DB) (name color : String) : DB :=
  if db.labels.any (fun r => r.name = name) then db
  else { db with
         labels := db.labels ++ [⟨db.next_label_id, name, color, none, true⟩],
         next_label_id := db.next_label_id + 1 }

/-- INSERT OR IGNORE into `versions` (conflict key: UNIQUE `name`). -/
def insertOrIgnoreVersion (db : DB) (name status : String) : DB :=
  if db.versions.any (fun r => r.name = name) then db
  else { db with
         versions := db.versions ++ [⟨db.next_version_id, name, none, status⟩],
         next_version_id := db.next_version_id + 1 }

/-- The `DatabaseManager._insert_initial_data`: the seed INSERT OR IGNOREs in
source order (statuses, default project, modules, labels, versions).
Description strings of the seeds are not needed by any claim and are
embedded as NULL to keep the terms small; they take no part in any
conflict key. -/
def insert_initial_data (db : DB) : DB :=
  let db := seedStatuses.foldl insertOrIgnoreStatus db
  let db := insertOrIgnoreProject db "Money Mentor AI" (some "Główny projekt aplikacji Money Mentor AI")
  let db := seedModules.foldl (fun d m => insertOrIgnoreModule d m.1 m.2) db
  let db := seedLabels.foldl (fun d l => insertOrIgnoreLabel d l.1 l.2) db
  let db := seedVersions.foldl (fun d v => insertOrIgnoreVersion d v.1 v.2) db
  db

/-- The `DatabaseManager.initialize_database`: returns immediately when the
singleton is already initialized; otherwise creates the schema (a no-op in
this embedding), inserts the seed data and sets the flag.  The only raise
path is a storage exception, which this pure embedding has no source for. -/
def initialize_database (db : DB) : DB :=
  if db.initialized then db
  else { insert_initial_data db with initialized := true }

/-! ## Metrics aggregator
(`BugDashboardController._calculate_filtered_metrics`) -/

/-- The `DashboardMetrics` dataclass (the fields the aggregator fills; the
trend fields are never set by it and stay at their defaults).  Python dicts
are embedded as insertion-ordered association lists. -/
structure DashboardMetrics where
  total_issues : Nat := 0
  open_issues : Nat := 0
  closed_issues : Nat := 0
  critical_bugs : Nat := 0
  my_assigned : Nat := 0
  issues_by_module : List (String × Nat) := []
  issues_by_status : List (String × Nat) := []
deriving DecidableEq, Repr

/-- The aggregator's `open_statuses` list — the stored status names, which
carry the emoji prefixes of the `task_statuses` seed. -/
def open_statuses : List String :=
  ["📋 To Do", "🚀 In Progress", "👀 Review", "🔒 Blocked",
   "🔍 Triaged", "👀 Code Review", "🧪 Testing", "🔄 Reopened"]

/-- The `t.status_name in open_statuses` (Python `None in [...]` is `False`). -/
def isOpenStatus : Option String → Bool
  | none => false
  | some n => open_statuses.contains n

/-- The `counts.get(key, 0) + 1` followed by `counts[key] = ...` on an
insertion-ordered dict: bump an existing key in place or append it. -/
def bump (m : List (String × Nat)) (k : String) : List (String × Nat) :=
  match m with
  | [] => [(k, 1)]
  | (k0, v) :: rest => if k0 = k then (k0, v + 1) :: rest else (k0, v) :: bump rest k

/-- The `task.module_name or 'Nie przypisano'` (Python `or`: `None` and `""`
both fall through to the default). -/
def moduleKey : Option String → String
  | none => "Nie przypisano"
  | some s => if s = "" then "Nie przypisano" else s

/-- The `task.status_name or 'Unknown'`. -/
def statusKey : Option String → String
  | none => "Unknown"
  | some s => if s = "" then "Unknown" else s

/-- The `BugDashboardController._calculate_filtered_metrics`, as a pure
function of the task collection and `self.current_user_id`: an empty
collection short-circuits to the default metrics; otherwise open counts the
tasks whose `status_name` is in `open_statuses`, closed is total minus
open, critical counts `issue_type == 'BUG' and priority == 1`, and the
module/status breakdowns are dict-count passes. -/
def calculate_filtered_metrics (tasks : List Task) (current_user_id : Option Int) :
    DashboardMetrics :=
  if tasks.isEmpty then {}
  else
    let total := tasks.length
    let opens := (tasks.filter (fun t => isOpenStatus t.status_name)).length
    { total_issues := total,
      open_issues := opens,
      closed_issues := total - opens,
      critical_bugs := (tasks.filter (fun t => t.issue_type = "BUG" && t.priority = 1)).length,
      my_assigned :=
        match current_user_id with
        | none => 0
        | some uid =>
          if uid = 0 then 0
          else (tasks.filter (fun t => t.assignee_id = some uid && isOpenStatus t.status_name)).length,
      issues_by_module := tasks.foldl (fun m t => bump m (moduleKey t.module_name)) [],
      issues_by_status := tasks.foldl (fun m t => bump m (statusKey t.status_name)) [] }

/-! ## Controller validation (`TaskController`) -/

/-- Python `str.strip()` on the character list: drop leading and trailing
whitespace. -/
def stripChars (l : List Char) : List Char :=
  ((l.dropWhile Char.isWhitespace).reverse.dropWhile Char.isWhitespace).reverse

/-- The `TaskController._validate_task_data`, checks in source order.  Python's
`not task.title or not task.title.strip()` is empty-or-whitespace-only;
`not task.project_id` / `not task.status_id` are the truthiness tests under
which a missing id and `0` coincide. -/
def validate_task_data (t : Task) : Except String Unit :=
  if t.title = "" || stripChars t.title.toList = [] then .error "Task title is required"
  else if t.title.length > 255 then .error "Task title must be 255 characters or less"
  else if !([1, 2, 3, 4, 5].contains t.priority) then .error "Priority must be between 1 and 5"
  else if !([1, 2, 3, 4].contains t.severity) then .error "Severity must be between 1 and 4"
  else if t.project_id = 0 then .error "Project ID is required"
  else if t.status_id = 0 then .error "Status ID is required"
  else .ok ()

/-- The `TaskController.create_task`: validate first, create in the store only
when validation passes (the notification step is a log-only stub).  The
result pairs the store after the call with the outcome, so a validation
error visibly leaves the store untouched. -/
def controller_create_task (db : DB) (t : Task) (now : Int) :
    DB × Except String Int :=
  match validate_task_data t with
  | .error e => (db, .error e)
  | .ok _ => let p := create_task db t now
             (p.2, .ok p.1)

/-! ## List view in-memory filters
(`EnhancedTaskListView._apply_all_filters`) -/

/-- The view's transient filter state: the free-text search box and the
four multi-select sets (Python sets of the displayed values). -/
structure ListFilters where
  search_text : String := ""
  selected_statuses : List String := []
  selected_priorities : List Int := []
  selected_types : List String := []
  selected_projects : List Int := []
deriving DecidableEq, Repr

/-- The `ISSUE_TYPE_CHOICES` (entities.py): (value, display) pairs. -/
def ISSUE_TYPE_CHOICES : List (String × String) :=
  [("BUG", "🐛 Bug"), ("FEATURE", "✨ Feature Request"),
   ("ENHANCEMENT", "🔧 Enhancement"), ("TASK", "📋 Task"),
   ("DOCUMENTATION", "📚 Documentation"), ("PERFORMANCE", "⚡ Performance"),
   ("SECURITY", "🔒 Security"), ("REFACTOR", "♻️ Refactoring")]

/-- The `Task.get_issue_type_display` (entities.py): `type_map.get(self.issue_type,
self.issue_type)`. -/
def get_issue_type_display (issue_type : String) : String :=
  match ISSUE_TYPE_CHOICES.find? (fun c => c.1 = issue_type) with
  | some c => c.2
  | none => issue_type

/-- The `type_values` set built by the type filter: each selected display is
looked up in `ISSUE_TYPE_CHOICES` and its value added (selections matching
no display contribute nothing). -/
def typeValues (selected : List String) : List String :=
  selected.foldl (fun acc sel =>
    match ISSUE_TYPE_CHOICES.find? (fun c => c.2 = sel) with
    | some c => acc ++ [c.1]
    | none => acc) []

/-- Python `str(task.id)` (`str(None)` is the string `"None"`). -/
def pyStrOfId : Option Int → String
  | some i => toString i
  | none => "None"

/-- The free-text predicate of `_apply_all_filters`: the lowered query must
occur in the lowered title, in the lowered description (a falsy description
never matches), or in `str(task.id)`. -/
def searchHit (q : List Char) (t : Task) : Bool :=
  hasInfix q (lowerList t.title) ||
    (match t.description with
     | some d => hasInfix q (lowerList d)
     | none => false) ||
    hasInfix q (pyStrOfId t.id).toList

/-- The `EnhancedTaskListView._apply_all_filters`: the sequential in-memory
filter passes — free text, then the four multi-select dimensions, each
skipped when its selection set is falsy (empty).  The type dimension first
translates selected displays to values and is also skipped when that
translation comes back empty. -/
def apply_all_filters (fl : ListFilters) (tasks : List Task) : List Task :=
  let ts := tasks
  let q := lowerList fl.search_text
  let ts := if q.isEmpty then ts else ts.filter (searchHit q)
  let ts := if fl.selected_statuses.isEmpty then ts
    else ts.filter (fun t =>
      match t.status_name with
      | some s => fl.selected_statuses.contains s
      | none => false)
  let ts := if fl.selected_priorities.isEmpty then ts
    else ts.filter (fun t => fl.selected_priorities.contains t.priority)
  let ts := if fl.selected_types.isEmpty then ts
    else
      let tv := typeValues fl.selected_types
      if tv.isEmpty then ts else ts.filter (fun t => tv.contains t.issue_type)
  let ts := if fl.selected_projects.isEmpty then ts
    else ts.filter (fun t => fl.selected_projects.contains t.project_id)
  ts

/-! ## Lemmas about the query engine -/

/-- Membership is preserved by one insertion step of the ORDER BY sort. -/
lemma mem_insUpd {x t : TaskRow} {l : List TaskRow} :
    x ∈ insUpd t l ↔ x = t ∨ x ∈ l := by
  induction l with
  | nil => simp [insUpd]
  | cons h tl ih =>
    simp only [insUpd]
    split
    · simp [List.mem_cons]
    · simp only [List.mem_cons, ih]
      tauto

/-- The ORDER BY sort only permutes the result: membership is unchanged. -/
lemma mem_sortByUpdatedDesc {x : TaskRow} {l : List TaskRow} :
    x ∈ sortByUpdatedDesc l ↔ x ∈ l := by
  induction l with
  | nil => simp [sortByUpdatedDesc]
  | cons h tl ih =>
    simp only [sortByUpdatedDesc, List.foldr_cons] at *
    rw [mem_insUpd, ih, List.mem_cons]

/-- The query clause in specification form: a set, non-empty `query` field
requires a LIKE hit on title or description. -/
lemma queryCond_iff (f : SearchFilter) (t : TaskRow) :
    queryCond f t = true ↔
      ∀ q, f.query = some q → q ≠ "" →
        (likeContains q t.title = true ∨ likeContainsOpt q t.description = true) := by
  unfold queryCond
  cases f.query with
  | none => simp
  | some q =>
    by_cases hq : q = "" <;> simp [hq]

/-- The project clause in specification form. -/
lemma projectCond_iff (f : SearchFilter) (t : TaskRow) :
    projectCond f t = true ↔
      ∀ v, f.project_id = some v → v ≠ 0 → t.project_id = v := by
  unfold projectCond
  cases f.project_id with
  | none => simp
  | some v =>
    by_cases hv : v = 0 <;> simp [hv]

/-- The issue-type clause in specification form. -/
lemma issueTypeCond_iff (f : SearchFilter) (t : TaskRow) :
    issueTypeCond f t = true ↔
      ∀ s, f.issue_type = some s → s ≠ "" → t.issue_type = s := by
  unfold issueTypeCond
  cases f.issue_type with
  | none => simp
  | some s =>
    by_cases hs : s = "" <;> simp [hs]

/-- The status clause in specification form. -/
lemma statusCond_iff (f : SearchFilter) (t : TaskRow) :
    statusCond f t = true ↔
      ∀ v, f.status_id = some v → v ≠ 0 → t.status_id = v := by
  unfold statusCond
  cases f.status_id with
  | none => simp
  | some v =>
    by_cases hv : v = 0 <;> simp [hv]

/-- The priority clause in specification form. -/
lemma priorityCond_iff (f : SearchFilter) (t : TaskRow) :
    priorityCond f t = true ↔
      ∀ v, f.priority = some v → v ≠ 0 → t.priority = v := by
  unfold priorityCond
  cases f.priority with
  | none => simp
  | some v =>
    by_cases hv : v = 0 <;> simp [hv]

/-- The assignee clause in specification form (the stored value must be the
non-NULL match of the filter value). -/
lemma assigneeCond_iff (f : SearchFilter) (t : TaskRow) :
    assigneeCond f t = true ↔
      ∀ v, f.assignee_id = some v → v ≠ 0 → t.assignee_id = some v := by
  unfold assigneeCond
  cases f.assignee_id with
  | none => simp
  | some v =>
    by_cases hv : v = 0 <;> simp [hv]

/-- The module clause in specification form. -/
lemma moduleCond_iff (f : SearchFilter) (t : TaskRow) :
    moduleCond f t = true ↔
      ∀ v, f.module_id = some v → v ≠ 0 → t.module_id = some v := by
  unfold moduleCond
  cases f.module_id with
  | none => simp
  | some v =>
    by_cases hv : v = 0 <;> simp [hv]

/-! ## C1 — filter conjunction semantics of the task query -/

/-- A store with one task of severity 3 whose project and status resolve. -/
def c1row : TaskRow :=
  { id := 1, project_id := 1, title := "t", description := none,
    status_id := 1, priority := 3 }

/-- Concrete store for the C1 counterexample. -/
def c1db : DB :=
  { projects := [⟨1, "Money Mentor AI", none⟩],
    task_statuses := [⟨1, "📋 To Do", "#6B7280", 1⟩],
    tasks := [c1row] }

/-- A filter that sets only `severity := 1`. -/
def c1filter : SearchFilter := { severity := some 1 }

/-- C1, counterexample.  The claim states that the query returns exactly
the tasks matching every set filter field, *including* `severity`; it
therefore entails that every returned task matches a set severity field.
That consequence is false: `get_enhanced_tasks_by_filter` never reads
`severity`, so a filter with `severity = 1` still returns the stored task
of severity 3. -/
theorem claim_C1_counterexample :
    ¬ (∀ (db : DB) (f : SearchFilter) (t : TaskRow),
        t ∈ get_enhanced_tasks_by_filter db f →
        ∀ v, f.severity = some v → t.severity = v) := by
  intro h
  have := h c1db c1filter c1row (by decide) 1 rfl
  exact absurd this (by decide)

/-- C1, amended.  The task query returns exactly the tasks of the store
that resolve to an existing project and status (inner joins) and satisfy
the conjunction of the *supported* set filter fields — `query`,
`project_id`, `issue_type`, `status_id`, `priority`, `assignee_id`,
`module_id` (a falsy value counting as unset) — while `severity`,
`reporter_id`, `labels` and the date-range bounds are ignored by the
query and impose no constraint even when set. -/
theorem claim_C1_amended :
    (∀ (db : DB) (f : SearchFilter) (t : TaskRow),
        t ∈ get_enhanced_tasks_by_filter db f ↔
          (t ∈ db.tasks ∧
           (∃ p ∈ db.projects, p.id = t.project_id) ∧
           (∃ s ∈ db.task_statuses, s.id = t.status_id) ∧
           (∀ q, f.query = some q → q ≠ "" →
              (likeContains q t.title = true ∨ likeContainsOpt q t.description = true)) ∧
           (∀ v, f.project_id = some v → v ≠ 0 → t.project_id = v) ∧
           (∀ s, f.issue_type = some s → s ≠ "" → t.issue_type = s) ∧
           (∀ v, f.status_id = some v → v ≠ 0 → t.status_id = v) ∧
           (∀ v, f.priority = some v → v ≠ 0 → t.priority = v) ∧
           (∀ v, f.assignee_id = some v → v ≠ 0 → t.assignee_id = some v) ∧
           (∀ v, f.module_id = some v → v ≠ 0 → t.module_id = some v))) ∧
    (∀ (db : DB) (f : SearchFilter) (sv rv : Option Int) (lb : List String)
        (cf ct uf ut : Option Int),
        get_enhanced_tasks_by_filter db
          { f with severity := sv, reporter_id := rv, labels := lb,
                   created_from := cf, created_to := ct,
                   updated_from := uf, updated_to := ut }
          = get_enhanced_tasks_by_filter db f) := by
  constructor
  · intro db f t
    rw [get_enhanced_tasks_by_filter, mem_sortByUpdatedDesc, List.mem_filter]
    simp only [Bool.and_eq_true, resolvesJoins, List.any_eq_true, decide_eq_true_eq,
      filterKeeps, queryCond_iff, projectCond_iff, issueTypeCond_iff, statusCond_iff,
      priorityCond_iff, assigneeCond_iff, moduleCond_iff]
    tauto
  · intro db f sv rv lb cf ct uf ut
    rfl

/-! ## C10 — falsy filter values impose no constraint -/

/-- C10.  A filter field set to its type's falsy value — `query = ""` or an
id/int field equal to `0` (`""` for `issue_type`) — produces exactly the
same query result as the same filter with that field unset: the code's
truthiness guards skip both. -/
theorem claim_C10 (db : DB) (f : SearchFilter) :
    get_enhanced_tasks_by_filter db { f with query := some "" }
        = get_enhanced_tasks_by_filter db { f with query := none } ∧
    get_enhanced_tasks_by_filter db { f with project_id := some 0 }
        = get_enhanced_tasks_by_filter db { f with project_id := none } ∧
    get_enhanced_tasks_by_filter db { f with issue_type := some "" }
        = get_enhanced_tasks_by_filter db { f with issue_type := none } ∧
    get_enhanced_tasks_by_filter db { f with status_id := some 0 }
        = get_enhanced_tasks_by_filter db { f with status_id := none } ∧
    get_enhanced_tasks_by_filter db { f with priority := some 0 }
        = get_enhanced_tasks_by_filter db { f with priority := none } ∧
    get_enhanced_tasks_by_filter db { f with assignee_id := some 0 }
        = get_enhanced_tasks_by_filter db { f with assignee_id := none } ∧
    get_enhanced_tasks_by_filter db { f with module_id := some 0 }
        = get_enhanced_tasks_by_filter db { f with module_id := none } :=
  ⟨rfl, rfl, rfl, rfl, rfl, rfl, rfl⟩

/-! ## C2 — the open-status classification of the metrics aggregator -/

/-- The open-status vocabulary exactly as the claim under test spells it:
plain names without the emoji prefixes the stored status names carry.
This transcribes the claim's words and is only compared against the code. -/
def spec_open_status_names : List String :=
  ["To Do", "In Progress", "Review", "Blocked",
   "Triaged", "Code Review", "Testing", "Reopened"]

/-- A task whose status name is the plain string `To Do`. -/
def c2plain : Task :=
  { id := some 1, project_id := 1, title := "Bug 1", status_id := 1,
    priority := 1, issue_type := "BUG", status_name := some "To Do" }

/-- The claim's fixture with the status names resolved through the seed
status vocabulary (`To Do` is stored as `📋 To Do`, `Done` as `✅ Done`). -/
def c2fixture : List Task :=
  [{ id := some 1, project_id := 1, title := "Bug 1", status_id := 1,
     priority := 1, issue_type := "BUG", status_name := some "📋 To Do" },
   { id := some 2, project_id := 1, title := "Feature 2", status_id := 5,
     priority := 3, issue_type := "FEATURE", status_name := some "✅ Done" }]

/-- C2, counterexample.  The claim says a task is classified open exactly
when its status name is in the plain set {To Do, In Progress, ...}.  The
aggregator's `open_statuses` list carries the emoji prefixes of the stored
names, so a task whose status name is the plain `"To Do"` — a member of
the claim's set — is counted closed: on `[c2plain]` the code yields
`open_issues = 0` where the claimed classification demands `1`. -/
theorem claim_C2_counterexample :
    ¬ (∀ (ts : List Task) (u : Option Int),
        (calculate_filtered_metrics ts u).open_issues
          = ts.countP (fun t =>
              match t.status_name with
              | some n => decide (n ∈ spec_open_status_names)
              | none => false)) := by
  intro h
  exact absurd (h [c2plain] none) (by decide)

/-- C2, amended.  The aggregator classifies a task as open exactly when its
status name is in the emoji-decorated stored vocabulary
{📋 To Do, 🚀 In Progress, 👀 Review, 🔒 Blocked, 🔍 Triaged,
👀 Code Review, 🧪 Testing, 🔄 Reopened}; on the two-task fixture with the
seed status names it yields total_issues = 2, open_issues = 1,
closed_issues = 1, critical_bugs = 1. -/
theorem claim_C2_amended :
    (∀ (ts : List Task) (u : Option Int),
        (calculate_filtered_metrics ts u).open_issues
          = ts.countP (fun t =>
              match t.status_name with
              | some n => decide (n ∈ open_statuses)
              | none => false)) ∧
    (calculate_filtered_metrics c2fixture none).total_issues = 2 ∧
    (calculate_filtered_metrics c2fixture none).open_issues = 1 ∧
    (calculate_filtered_metrics c2fixture none).closed_issues = 1 ∧
    (calculate_filtered_metrics c2fixture none).critical_bugs = 1 := by
  refine ⟨?_, by decide, by decide, by decide, by decide⟩
  intro ts u
  have hp : ∀ t : Task,
      (fun t : Task =>
        match t.status_name with
        | some n => decide (n ∈ open_statuses)
        | none => false) t = isOpenStatus t.status_name := by
    intro t
    cases h : t.status_name with
    | none => simp [h, isOpenStatus]
    | some n => simp [h, isOpenStatus, List.contains, List.elem_iff]
  rw [List.countP_eq_length_filter, List.filter_congr (fun t _ => hp t)]
  cases ts with
  | nil => rfl
  | cons a l => rfl

/-! ## C3 — open and closed partition the total -/

/-- C3.  For every task collection (the empty one included) the metrics
satisfy `open_issues + closed_issues = total_issues`: the aggregator
computes closed as total minus open, and open, being the length of a
filtered sublist, never exceeds the total. -/
theorem claim_C3 (ts : List Task) (u : Option Int) :
    (calculate_filtered_metrics ts u).open_issues
        + (calculate_filtered_metrics ts u).closed_issues
      = (calculate_filtered_metrics ts u).total_issues := by
  unfold calculate_filtered_metrics
  cases ts with
  | nil => rfl
  | cons a l =>
    simp only [List.isEmpty_cons, Bool.false_eq_true, if_false]
    have := List.length_filter_le (fun t => isOpenStatus t.status_name) (a :: l)
    omega

/-! ## C4 — uniqueness violations on create -/

/-- Concrete store for the C4 theorems: one user, one project, one label. -/
def c4db : DB :=
  { users := [⟨1, "alice", "alice@example.com", "Alice A", "ADMIN", none, true⟩],
    projects := [⟨1, "Money Mentor AI", none⟩],
    labels := [⟨1, "regression", "#FF8800", none, true⟩],
    next_user_id := 2, next_project_id := 2, next_label_id := 2 }

/-- C4, counterexample.  The claim says every create of a user, project or
label whose natural key already exists fails with a domain-level "already
exists" error rather than a raw storage error.  `create_project` has no
try/except around its INSERT: a duplicate project name lets the raw
`sqlite3.IntegrityError` escape, so the claimed domain-level error never
materializes. -/
theorem claim_C4_counterexample :
    ¬ (∀ (db : DB) (p : Project),
        (∃ r ∈ db.projects, r.name = p.name) →
        ∃ m, create_project db p = Except.error (StoreError.valueError m)) := by
  intro h
  obtain ⟨m, hm⟩ := h c4db ⟨none, "Money Mentor AI", none⟩ (by decide)
  rw [show create_project c4db ⟨none, "Money Mentor AI", none⟩
        = Except.error StoreError.integrityError from rfl] at hm
  simp at hm

/-- C4, amended.  Only user creation surfaces a uniqueness violation as the
domain-level "already exists" `ValueError`; duplicate project and label
names make `create_project` and `create_label` fail with the raw storage
`IntegrityError` that escapes uncaught. -/
theorem claim_C4_amended :
    (∀ (db : DB) (u : User),
        (∃ r ∈ db.users, r.username = u.username ∨ r.email = u.email) →
        ∃ m, create_user db u = Except.error (StoreError.valueError m)) ∧
    (∀ (db : DB) (p : Project),
        (∃ r ∈ db.projects, r.name = p.name) →
        create_project db p = Except.error StoreError.integrityError) ∧
    (∀ (db : DB) (l : Label),
        (∃ r ∈ db.labels, r.name = l.name) →
        create_label db l = Except.error StoreError.integrityError) := by
  refine ⟨?_, ?_, ?_⟩
  · rintro db u ⟨r, hr, hcase⟩
    unfold create_user
    rw [if_pos]
    · exact ⟨_, rfl⟩
    · refine List.any_eq_true.mpr ⟨r, hr, ?_⟩
      rcases hcase with h | h <;> simp [h]
  · rintro db p ⟨r, hr, hname⟩
    unfold create_project
    rw [if_pos]
    exact List.any_eq_true.mpr ⟨r, hr, by simp [hname]⟩
  · rintro db l ⟨r, hr, hname⟩
    unfold create_label
    rw [if_pos]
    exact List.any_eq_true.mpr ⟨r, hr, by simp [hname]⟩

/-- C4, witness: the amended theorem applied to `c4db` with a duplicate
username, a duplicate project name and a duplicate label name. -/
theorem claim_C4_witness :
    (∃ m, create_user c4db ⟨none, "alice", "new@example.com", "Alice B", "REPORTER", none, true⟩
        = Except.error (StoreError.valueError m)) ∧
    create_project c4db ⟨none, "Money Mentor AI", none⟩
        = Except.error StoreError.integrityError ∧
    create_label c4db ⟨none, "regression", "#AAAAAA", none, false⟩
        = Except.error StoreError.integrityError :=
  ⟨claim_C4_amended.1 c4db _ (by decide),
   claim_C4_amended.2.1 c4db _ (by decide),
   claim_C4_amended.2.2 c4db _ (by decide)⟩

/-! ## C5 — status history on status update and task creation -/

/-- C5.  Updating an existing task's status appends exactly one
`status_history` row recording the previous status as old and the new
status as new; creating a task appends exactly one row with
`old_status_id = NULL` and the created task's status as new. -/
theorem claim_C5 :
    (∀ (db : DB) (task_id new_status_id now : Int) (r : TaskRow),
        db.tasks.find? (fun q => q.id = task_id) = some r →
        ∃ db2, update_task_status db task_id new_status_id now = Except.ok db2 ∧
          db2.status_history = db.status_history ++
            [⟨db.next_history_id, task_id, some r.status_id, new_status_id,
              some now, none⟩]) ∧
    (∀ (db : DB) (t : Task) (now : Int),
        ((create_task db t now).2).status_history = db.status_history ++
          [⟨db.next_history_id, (create_task db t now).1, none, t.status_id,
            some now, t.reporter_id⟩]) := by
  constructor
  · intro db task_id new_status_id now r hfind
    unfold update_task_status
    rw [hfind]
    exact ⟨_, rfl, rfl⟩
  · intro db t now
    rfl

/-- The stored row of the C5 witness store. -/
def c5row : TaskRow :=
  { id := 1, project_id := 1, title := "t", description := none,
    status_id := 1, priority := 3 }

/-- Concrete one-task store for the C5 witness. -/
def c5db : DB :=
  { tasks := [c5row], next_task_id := 2 }

/-- Concrete task entity for the C5 witness. -/
def c5task : Task :=
  { id := none, project_id := 1, title := "new", status_id := 2, priority := 2,
    reporter_id := some 4 }

/-- C5, witness: the theorem applied to a concrete store, status change
1 → 5 at tick 7, and a concrete creation at tick 9. -/
theorem claim_C5_witness :
    (∃ db2, update_task_status c5db 1 5 7 = Except.ok db2 ∧
        db2.status_history = c5db.status_history ++
          [⟨c5db.next_history_id, 1, some 1, 5, some 7, none⟩]) ∧
    ((create_task c5db c5task 9).2).status_history = c5db.status_history ++
        [⟨c5db.next_history_id, (create_task c5db c5task 9).1, none,
          c5task.status_id, some 9, c5task.reporter_id⟩] :=
  ⟨claim_C5.1 c5db 1 5 7 c5row (by decide), claim_C5.2 c5db c5task 9⟩

/-! ## C6 — controller validation blocks creation before any mutation -/

/-- The violation conditions the claim lists (an `abbrev`, so concrete
instances stay decidable): empty or whitespace-only title, overlong title,
priority outside 1..5, severity outside 1..4, falsy project or status id. -/
abbrev violatesTaskValidation (t : Task) : Prop :=
  t.title = "" ∨ stripChars t.title.toList = [] ∨ 255 < t.title.length ∨
    t.priority ∉ ([1, 2, 3, 4, 5] : List Int) ∨
    t.severity ∉ ([1, 2, 3, 4] : List Int) ∨
    t.project_id = 0 ∨ t.status_id = 0

/-- A violating task makes `_validate_task_data` raise. -/
lemma validate_error_of_violation (t : Task) (h : violatesTaskValidation t) :
    ∃ e, validate_task_data t = Except.error e := by
  unfold validate_task_data
  split_ifs with h1 h2 h3 h4 h5 h6
  any_goals exact ⟨_, rfl⟩
  exfalso
  simp only [Bool.or_eq_true, decide_eq_true_eq, not_or] at h1
  simp only [decide_eq_true_eq, not_lt] at h2
  simp only [Bool.not_eq_true', Bool.not_eq_false, List.contains, List.elem_iff] at h3 h4
  simp only [decide_eq_true_eq] at h5 h6
  rcases h with h | h | h | h | h | h | h
  · exact h1.1 h
  · exact h1.2 h
  · omega
  · exact h h3
  · exact h h4
  · exact h5 h
  · exact h6 h

/-- C6.  Controller-level task creation with data violating a validation
rule reports the validation error and leaves the store untouched: no task
row and no status-history row is written. -/
theorem claim_C6 (db : DB) (t : Task) (now : Int)
    (h : violatesTaskValidation t) :
    (controller_create_task db t now).1 = db ∧
      ∃ msg, (controller_create_task db t now).2 = Except.error msg := by
  obtain ⟨e, he⟩ := validate_error_of_violation t h
  unfold controller_create_task
  rw [he]
  exact ⟨rfl, e, rfl⟩

/-- A task whose priority 9 is out of range. -/
def c6task : Task :=
  { id := none, project_id := 1, title := "valid title", status_id := 1,
    priority := 9 }

/-- C6, witness: the theorem applied to the empty store and the
out-of-range task. -/
theorem claim_C6_witness :
    (controller_create_task {} c6task 0).1 = ({} : DB) ∧
      ∃ msg, (controller_create_task {} c6task 0).2 = Except.error msg :=
  claim_C6 {} c6task 0 (by decide)

/-! ## C7 — idempotent initialization -/

/-- A fresh store: empty tables, counters at 1, not yet initialized. -/
def emptyDB : DB := {}

/-- C7.  Initializing twice raises nothing (the embedding is total) and
does not duplicate seed rows: the `task_statuses` table holds exactly 10
rows after a double initialization, the second call leaves the store
unchanged, and even re-running the seed insertion itself (the fresh-process
case, where the `_initialized` flag does not yet guard) leaves the count at
10 thanks to INSERT OR IGNORE. -/
theorem claim_C7 :
    initialize_database (initialize_database emptyDB) = initialize_database emptyDB ∧
    (initialize_database (initialize_database emptyDB)).task_statuses.length = 10 ∧
    (insert_initial_data (initialize_database emptyDB)).task_statuses.length = 10 :=
  ⟨rfl, rfl, rfl⟩

/-! ## C8 — the list view's in-memory multi-select filtering -/

/-- A string's character list is empty exactly when the string is empty. -/
lemma toList_eq_nil {s : String} : s.toList = [] ↔ s = "" := by
  constructor
  · intro h
    cases s with
    | mk data =>
      simp only [String.toList] at h
      simp [h]
  · intro h
    simp [h]

/-- Lowercasing preserves emptiness. -/
lemma lowerList_eq_nil {s : String} : lowerList s = [] ↔ s = "" := by
  unfold lowerList
  rw [List.map_eq_nil_iff, toList_eq_nil]

/-- Membership in a conditionally applied filter stage. -/
lemma mem_ite_filter {α : Type} {l : List α} {p : α → Bool} {c : Prop}
    [Decidable c] {t : α} :
    (t ∈ if c then l else l.filter p) ↔ (t ∈ l ∧ (¬c → p t = true)) := by
  split_ifs with h
  · simp [h]
  · simp [List.mem_filter, h]

/-- Membership in the doubly guarded type-filter stage. -/
lemma mem_ite2_filter {α : Type} {l : List α} {p : α → Bool} {c d : Prop}
    [Decidable c] [Decidable d] {t : α} :
    (t ∈ if c then l else if d then l else l.filter p) ↔
      (t ∈ l ∧ (¬c → ¬d → p t = true)) := by
  split_ifs with h h2
  · simp [h]
  · simp [h, h2]
  · simp [List.mem_filter, h, h2]

/-- The description disjunct of the free-text predicate in `∃` form. -/
lemma descHit_iff (q : List Char) (t : Task) :
    (match t.description with
     | some d => hasInfix q (lowerList d)
     | none => false) = true ↔
      ∃ d, t.description = some d ∧ hasInfix q (lowerList d) = true := by
  cases h : t.description <;> simp [h]

/-- The `searchHit` unfolded into its three disjuncts. -/
lemma searchHit_iff (q : List Char) (t : Task) :
    searchHit q t = true ↔
      (hasInfix q (lowerList t.title) = true ∨
       (∃ d, t.description = some d ∧ hasInfix q (lowerList d) = true) ∨
       hasInfix q (pyStrOfId t.id).toList = true) := by
  unfold searchHit
  rw [Bool.or_eq_true, Bool.or_eq_true, descHit_iff]
  exact or_assoc

/-- The status multi-select predicate in `∃` form. -/
lemma statusSel_iff (sel : List String) (t : Task) :
    (match t.status_name with
     | some s => sel.contains s
     | none => false) = true ↔
      ∃ s, t.status_name = some s ∧ s ∈ sel := by
  cases h : t.status_name <;> simp [h, List.contains, List.elem_iff]

/-- The `List.contains` agrees with membership. -/
lemma contains_iff_mem {α : Type} [DecidableEq α] {l : List α} {a : α} :
    l.contains a = true ↔ a ∈ l := by
  simp [List.contains, List.elem_iff]

/-- The claim's literal keep-predicate, transcribed for comparison with the
code: the lowercased query must be a substring of the (raw) title, the
(raw) description, or the decimal id; membership for the issue-type
dimension is on the display names. -/
def specKeepC8 (fl : ListFilters) (t : Task) : Bool :=
  (fl.search_text = "" ||
      (hasInfix (lowerList fl.search_text) t.title.toList ||
        (match t.description with
         | some d => hasInfix (lowerList fl.search_text) d.toList
         | none => false) ||
        (match t.id with
         | some i => hasInfix (lowerList fl.search_text) (toString i).toList
         | none => false))) &&
    (fl.selected_statuses.isEmpty ||
      (match t.status_name with
       | some s => fl.selected_statuses.contains s
       | none => false)) &&
    (fl.selected_priorities.isEmpty || fl.selected_priorities.contains t.priority) &&
    (fl.selected_types.isEmpty ||
      fl.selected_types.contains (get_issue_type_display t.issue_type)) &&
    (fl.selected_projects.isEmpty || fl.selected_projects.contains t.project_id)

/-- The list-view filter state of the C8 counterexample: only the free-text
query is set, to the upper-case `"X"`. -/
def c8fl : ListFilters := { search_text := "X" }

/-- A task whose title is the upper-case `"X"`. -/
def c8task : Task :=
  { id := some 7, project_id := 1, title := "X", status_id := 1, priority := 3 }

/-- C8, counterexample.  The claim demands that a task be kept exactly when
the lowercased query is a substring of the task's title, description or
decimal id.  The code lowercases the *title and description too* before
matching: querying `"X"` keeps the task titled `"X"` (the code compares
`"x"` against `"x"`), while the claim's literal predicate rejects it
(`"x"` is not a substring of `"X"`, of the absent description, or of
`"7"`). -/
theorem claim_C8_counterexample :
    ¬ (∀ (fl : ListFilters) (ts : List Task) (t : Task),
        t ∈ apply_all_filters fl ts ↔ (t ∈ ts ∧ specKeepC8 fl t = true)) := by
  intro h
  have hmem : c8task ∈ apply_all_filters c8fl [c8task] := by decide
  have := (h c8fl [c8task] c8task).mp hmem
  exact absurd this.2 (by decide)

/-- C8, amended.  A task is kept exactly when every dimension with a
non-empty selection admits it — status name, priority and project id by
set membership; issue type by membership of the value set obtained by
translating the selected displays through `ISSUE_TYPE_CHOICES` (when no
selected display translates, the dimension imposes no constraint) — and,
when the free-text query is non-empty, the lowercased query is a substring
of the lowercased title, of the lowercased description, or of
`str(task.id)`. -/
theorem claim_C8_amended (fl : ListFilters) (ts : List Task) (t : Task) :
    t ∈ apply_all_filters fl ts ↔
      (t ∈ ts ∧
       (fl.search_text ≠ "" →
          (hasInfix (lowerList fl.search_text) (lowerList t.title) = true ∨
           (∃ d, t.description = some d ∧
              hasInfix (lowerList fl.search_text) (lowerList d) = true) ∨
           hasInfix (lowerList fl.search_text) (pyStrOfId t.id).toList = true)) ∧
       (fl.selected_statuses ≠ [] →
          ∃ s, t.status_name = some s ∧ s ∈ fl.selected_statuses) ∧
       (fl.selected_priorities ≠ [] → t.priority ∈ fl.selected_priorities) ∧
       (fl.selected_types ≠ [] → typeValues fl.selected_types ≠ [] →
          t.issue_type ∈ typeValues fl.selected_types) ∧
       (fl.selected_projects ≠ [] → t.project_id ∈ fl.selected_projects)) := by
  simp only [apply_all_filters]
  rw [mem_ite_filter, mem_ite2_filter, mem_ite_filter, mem_ite_filter, mem_ite_filter]
  simp only [List.isEmpty_iff, lowerList_eq_nil, searchHit_iff, statusSel_iff,
    contains_iff_mem]
  tauto

/-! ## C9 — task update is not a full-record write -/

/-- The stored row of the C9 counterexample. -/
def c9row : TaskRow :=
  { id := 1, project_id := 1, title := "t", description := none,
    status_id := 1, priority := 3 }

/-- Store holding just `c9row`. -/
def c9db : DB := { tasks := [c9row] }

/-- An update record for task 1 that carries a different `project_id`. -/
def c9task : Task :=
  { id := some 1, project_id := 2, title := "t2", status_id := 1, priority := 3 }

/-- C9, counterexample.  The claim says the update writes *every* attribute
of the supplied record, so afterwards every stored field equals the
supplied value.  The UPDATE's SET list omits `project_id` (among others):
updating task 1 with a record carrying `project_id = 2` leaves the stored
`project_id` at 1. -/
theorem claim_C9_counterexample :
    ¬ (∀ (db : DB) (t : Task) (now : Int) (r : TaskRow),
        r ∈ (update_task db t now).tasks → some r.id = t.id →
        r.project_id = t.project_id) := by
  intro h
  exact absurd
    (h c9db c9task 5 (applyTaskUpdate c9task 5 c9row) (by decide) (by decide))
    (by decide)

/-- C9, amended.  `update_task` is a fixed-column update: for the row whose
id matches the record it writes exactly the nineteen columns of its SET
list from the record and stamps `updated_at` with the current time, while
`id`, `project_id`, `reporter_id`, `duplicate_of` and `created_at` keep
their stored values; every other row is untouched. -/
theorem claim_C9_amended (db : DB) (t : Task) (now : Int) :
    List.Forall₂ (fun old new : TaskRow =>
      (some old.id = t.id →
        new.title = t.title ∧ new.description = t.description ∧
        new.status_id = t.status_id ∧ new.priority = t.priority ∧
        new.issue_type = t.issue_type ∧ new.severity = t.severity ∧
        new.assignee_id = t.assignee_id ∧ new.module_id = t.module_id ∧
        new.affected_version_id = t.affected_version_id ∧
        new.fix_version_id = t.fix_version_id ∧
        new.environment = t.environment ∧
        new.steps_to_reproduce = t.steps_to_reproduce ∧
        new.expected_result = t.expected_result ∧
        new.actual_result = t.actual_result ∧
        new.stack_trace = t.stack_trace ∧
        new.resolution = t.resolution ∧
        new.resolution_notes = t.resolution_notes ∧
        new.estimated_hours = t.estimated_hours ∧
        new.time_spent = t.time_spent ∧
        new.updated_at = some now ∧
        new.id = old.id ∧ new.project_id = old.project_id ∧
        new.reporter_id = old.reporter_id ∧
        new.duplicate_of = old.duplicate_of ∧
        new.created_at = old.created_at) ∧
      (some old.id ≠ t.id → new = old))
      db.tasks (update_task db t now).tasks := by
  show List.Forall₂ _ db.tasks (db.tasks.map _)
  rw [List.forall₂_map_right_iff, List.forall₂_same]
  intro r _
  by_cases hid : some r.id = t.id
  · refine ⟨fun _ => ?_, fun hn => absurd hid hn⟩
    simp [hid, applyTaskUpdate]
  · exact ⟨fun hc => absurd hc hid, fun _ => by simp [hid]⟩

end BugTracker
